import Mathlib

/-!
Verification of the FinGuard intent router and finance/scam subsystems.

This file gives a shallow embedding, in Lean 4, of the routing and
bookkeeping logic of the repository:

* `feature_router/router.py` — greeting heuristic, query classification
  fallback, dispatch table (`router_feature`);
* `llm/run_agent.py` — session sliding window and the schemes handler;
* `scam_detector/scam_detector.py` — red-flag keyword scan and the
  rule-based fallback analysis;
* `smart_budget_manager/spending_analyser.py` — `check_budget_status`;
* `smart_budget_manager/alert_generator.py` — budget alert tiers;
* `agent/finance_agent.py` — `finance_transaction_handler` and
  `handle_budget_setup`;
* `db_/neo4j_finance.py` — `add_transaction`, `set_budget` and the shape
  of the persisted `User`/`Transaction`/`Budget` records.

Modelling conventions:

* Python floats are modelled as rationals (`ℚ`); every comparison the
  claims depend on (`< 0.6`, `≥ 75/90/100`, `> 0`) is exact at the
  constants involved.
* External collaborators (the hosted LLM, the graph database, the email
  API, Python float-to-string formatting) are inputs: an LLM or database
  call that can raise is an `Except String _` value supplied by the
  caller, a structured-output parse is an `Option _`/`Except _ _` value,
  and Python f-string number rendering is an abstract `PyFmt` record of
  functions.  No claim depends on the value of a formatted number.
* A Python dict response envelope `{"answer": ..., "type": ...}` is the
  structure `Envelope`; the optional extra keys (`transaction`, `alert`,
  `user_profile`, ...) are not modelled, no claim mentions them.
* Python `str` is `String`; `s.lower()` is `String.toLower`,
  `s.strip()` is `String.trim`, `kw in s` is substring containment on
  the underlying character lists.
-/

namespace FinGuard

/-- Substring test on character lists: does `needle` occur contiguously in
`hay`?  Structural recursion so that concrete instances kernel-reduce. -/
def containsSub (needle : List Char) : List Char → Bool
  | [] => needle.isEmpty
  | c :: rest => needle.isPrefixOf (c :: rest) || containsSub needle rest

/-- Substring containment, Python's `kw in s`. -/
def strContains (s kw : String) : Bool :=
  containsSub kw.data s.data

/-- Python `s.lower()` (ASCII range, which is all the sources compare). -/
def lowerChars (l : List Char) : List Char :=
  l.map Char.toLower

/-- Python `s.strip()`. -/
def trimChars (l : List Char) : List Char :=
  ((l.dropWhile Char.isWhitespace).reverse.dropWhile Char.isWhitespace).reverse

/-- Python `s.lower().strip()` producing the character list the router
heuristics inspect. -/
def lowerStrip (s : String) : List Char :=
  trimChars (lowerChars s.data)

/-! ## Query classification (`feature_router/router.py`, lines 175-333) -/

/-- The `Literal` category taxonomy of `QueryClassification`. -/
inductive Category where
  | government_schemes
  | transaction_logging
  | spending_query
  | budget_setup
  | scam_detection
  | scam_analysis
  | concept_explanation
  | email_scam_check
  | email_payment_extraction
  | general_conversation
deriving DecidableEq

/-- The structured output of the classification chain. -/
structure QueryClassification where
  category : Category
  confidence : ℚ
  reasoning : String
deriving DecidableEq

/-- The degraded default built in the `except` branch of `classify_query`. -/
def fallback_classification (e : String) : QueryClassification :=
  { category := Category.general_conversation
    confidence := 1/2
    reasoning := "Classification failed: " ++ e }

/-- `classify_query` (router.py 316-333).  The classifier chain is external:
`chainInvoke n` is the outcome of the `n`-th `classifier_chain.invoke` call
that would be issued.  The source issues exactly one call (inside `try`),
so only `chainInvoke 0` is consulted; an exception yields the fallback. -/
def classify_query (chainInvoke : Nat → Except String QueryClassification) :
    QueryClassification :=
  match chainInvoke 0 with
  | Except.ok c => c
  | Except.error e => fallback_classification e

/-! ## Greeting heuristic (`router.py`, lines 13-41) -/

/-- The fixed greeting list of `_is_greeting`. -/
def greetings : List String :=
  ["hi", "hello", "hey", "namaste", "namaskar",
   "good morning", "good afternoon", "good evening",
   "hii", "hiii", "heyyy", "helo", "hlo",
   "hola", "sup", "wassup", "what\x27s up",
   "kaise ho", "kya haal hai", "how are you",
   "start", "begin", "help"]

/-- `_is_greeting` (router.py 13-41): exact membership, then prefix match,
then the short-and-question-mark-free test. -/
def is_greeting (query : String) : Bool :=
  let query_lower := lowerStrip query
  if greetings.any (fun g => g.data == query_lower) then
    true
  else if greetings.any (fun g => g.data.isPrefixOf query_lower) then
    true
  else if query_lower.length ≤ 10 && !(query_lower.contains '?') then
    true
  else
    false

/-! ## Messages, sessions and `run_agent` (`llm/run_agent.py`) -/

/-- A chat message role (`HumanMessage` / `AIMessage`). -/
inductive Role where
  | human
  | ai
deriving DecidableEq

/-- A chat message. -/
structure Message where
  role : Role
  content : String
deriving DecidableEq

/-- One user's entry of the module-level `sessions` dict. -/
structure SessionData where
  session : List Message
  memory : String
deriving DecidableEq

/-- The session `get_session` creates for an unseen `user_id`. -/
def initSession : SessionData :=
  { session := [], memory := "Conversation just started!" }

/-- Python `l[-n:]`. -/
def lastN (n : Nat) (l : List α) : List α :=
  l.drop (l.length - n)

/-- The state the agent graph invocation returns; only the `messages` key is
read by `run_agent` before the final envelope (the `user_profile` and
`target_scope` extras of the envelope are not modelled). -/
structure GraphResult where
  messages : List Message
deriving DecidableEq

/-- The response envelope `{"answer": ..., "type": ...}`; optional extra
keys are not modelled. -/
structure Envelope where
  answer : String
  type : String
deriving DecidableEq

def run_agent_apology : String :=
  "I apologize, I encountered an error processing your request. Please try again."

/-- What one `run_agent` call produces: the updated session entry, the
messages handed to `add_to_vectordb`, and either the returned envelope or
the exception the call raises. -/
structure RunAgentResult where
  newSession : SessionData
  archived : List Message
  result : Except String Envelope

/-- `run_agent` (run_agent.py 20-80).  `invoke` is the outcome of
`app.invoke` together with the `res['messages'][-1]` read, both of which sit
inside the `try`; `update_summary` is the external summariser.  Note the
source reads `res.get("user_profile", {})` in the final `return` even though
`res` is only assigned inside the `try`: when `app.invoke` raises, the
session is still updated but the return statement itself raises
`UnboundLocalError`, which we model as `Except.error`. -/
def run_agent (user_input : String) (invoke : Except String GraphResult)
    (update_summary : String → List Message → String)
    (sd : SessionData) : RunAgentResult :=
  let tryOut : Option GraphResult × String :=
    match invoke with
    | Except.error _ => (none, run_agent_apology)
    | Except.ok r =>
      match r.messages.getLast? with
      | some m => (some r, m.content)
      | none => (some r, run_agent_apology)
  let res := tryOut.1
  let answer := tryOut.2
  let session := sd.session ++ [⟨Role.human, user_input⟩, ⟨Role.ai, answer⟩]
  let newSd : SessionData :=
    if session.length > 10 then
      { session := lastN 4 session, memory := update_summary sd.memory session }
    else
      { sd with session := session }
  let archived := if session.length > 10 then session.take (session.length - 4) else []
  let result : Except String Envelope :=
    match res with
    | some _ => Except.ok { answer := answer, type := "schemes" }
    | none => Except.error
        "UnboundLocalError: local variable \x27res\x27 referenced before assignment"
  { newSession := newSd, archived := archived, result := result }

/-! ## Scam detector (`scam_detector/scam_detector.py`) -/

/-- The structured-output schema `ScamAnalysis`. -/
structure ScamAnalysis where
  is_scam : Bool
  risk_level : String
  confidence : ℚ
  scam_type : Option String
  red_flags : List String
  recommendation : String
deriving DecidableEq

/-- `self.red_flag_keywords` (scam_detector.py 29-37), in insertion order. -/
def red_flag_keywords : List (String × List String) :=
  [("urgent", ["urgent", "immediately", "expire", "limited time", "act now", "hurry"]),
   ("money_request", ["send money", "transfer", "payment required", "pay now", "deposit"]),
   ("personal_info", ["otp", "pin", "password", "cvv", "card number", "account number"]),
   ("threats", ["block", "suspend", "legal action", "police", "arrest", "fine"]),
   ("prizes", ["won", "winner", "lottery", "prize", "congratulations", "selected"]),
   ("impersonation", ["bank", "government", "income tax", "police", "courier"]),
   ("suspicious_links", ["bit.ly", "tinyurl", "click here", "verify account", "update kyc"])]

/-- `_detect_red_flags` (scam_detector.py 100-110): one `"category: 'kw'"`
entry per keyword occurring in the lower-cased message, iterating every
keyword of every category. -/
def detect_red_flags (message : String) : List String :=
  let message_lower := lowerChars message.data
  (red_flag_keywords.map (fun ck =>
    (ck.2.filter (fun kw => containsSub kw.data message_lower)).map
      (fun kw => ck.1 ++ ": \x27" ++ kw ++ "\x27"))).flatten

/-- `_fallback_analysis` (scam_detector.py 233-261); the `message` argument
is unused by the source too. -/
def fallback_analysis (_message : String) (red_flags : List String) : ScamAnalysis :=
  let flag_count := red_flags.length
  let recoTxt := "⚠️ Analysis incomplete. Exercise caution and verify with official sources."
  let st := some "Unknown (LLM analysis failed)"
  if flag_count ≥ 4 then
    { is_scam := true, risk_level := "CRITICAL", confidence := 9/10,
      scam_type := st, red_flags := red_flags, recommendation := recoTxt }
  else if flag_count ≥ 2 then
    { is_scam := true, risk_level := "HIGH", confidence := 3/4,
      scam_type := st, red_flags := red_flags, recommendation := recoTxt }
  else if flag_count = 1 then
    { is_scam := true, risk_level := "MEDIUM", confidence := 1/2,
      scam_type := st, red_flags := red_flags, recommendation := recoTxt }
  else
    { is_scam := false, risk_level := "LOW", confidence := 3/10,
      scam_type := st, red_flags := red_flags, recommendation := recoTxt }

/-- `_llm_analyze` (scam_detector.py 112-164): `chainInvoke` is the external
structured-output call; an exception falls back to `_fallback_analysis`. -/
def llm_analyze (message : String) (red_flags : List String)
    (chainInvoke : Except String ScamAnalysis) : ScamAnalysis :=
  match chainInvoke with
  | Except.ok r => r
  | Except.error _ => fallback_analysis message red_flags

/-- `detect_scam` (scam_detector.py 73-98) as called from the router with
`context = None`: the ML step is skipped, so `_combine_results` only
overwrites `red_flags`. -/
def detect_scam (message : String) (chainInvoke : Except String ScamAnalysis) :
    ScamAnalysis :=
  let red_flags := detect_red_flags message
  let llm := llm_analyze message red_flags chainInvoke
  { llm with red_flags := red_flags }

/-! ## Python string helpers and abstract float formatting -/

/-- Python `s.upper()`. -/
def pyUpper (s : String) : String :=
  ⟨s.data.map Char.toUpper⟩

/-- Python `s.capitalize()`. -/
def pyCapitalize (s : String) : String :=
  match s.data with
  | [] => ""
  | c :: rest => ⟨Char.toUpper c :: lowerChars rest⟩

/-- Python float-to-string formatting, supplied abstractly: `money` is
`f"{x:,.2f}"`, `f2` is `f"{x:.2f}"`, `f1` is `f"{x:.1f}"`, `pct0` is
`f"{x:.0%}"` and `plain` is `f"{x}"`.  No claim depends on the rendered
digits, only on which template is used where. -/
structure PyFmt where
  money : ℚ → String
  f2 : ℚ → String
  f1 : ℚ → String
  pct0 : ℚ → String
  plain : ℚ → String

/-! ## Finance database (`db_/neo4j_finance.py`) -/

/-- A persisted `Budget` node (the bookkeeping-only `currency`,
`created_at`, `updated_at` properties are not modelled). -/
structure Budget where
  user_id : String
  category : String
  monthly_limit : ℚ
deriving DecidableEq

/-- A persisted `Transaction` node.  `category` and `payment_mode` are
optional because `transaction.model_dump()` always carries the keys, so the
`.get(..., default)` defaults in `add_transaction` never fire and a `None`
value is stored as `null`. -/
structure Transaction where
  user_id : String
  amount : ℚ
  category : Option String
  description : String
  type : String
  payment_mode : Option String
  date : String
deriving DecidableEq

/-- The finance graph: `Budget` and `Transaction` nodes.  The
`MADE_TRANSACTION`/`HAS_BUDGET` edges are represented by the `user_id`
properties, which the source writes consistently with the edges. -/
structure FinDB where
  budgets : List Budget
  transactions : List Transaction
deriving DecidableEq

def FinDB.empty : FinDB :=
  { budgets := [], transactions := [] }

/-- The structured output of `parse_transaction`
(`smart_budget_manager/transaction_parser.py` 8-15). -/
structure TransactionExtract where
  amount : ℚ
  category : Option String
  description : String
  type : String
  payment_mode : Option String
  date : Option String
deriving DecidableEq

/-- `FinanceDB.add_transaction` (neo4j_finance.py 51-123): `MERGE` the user,
`CREATE` a fresh `Transaction` node.  `storedDate` is the normalized date
string the source computes from `t.date` and the wall clock (external).
No `Budget` node is created or modified. -/
def add_transaction (db : FinDB) (user_id : String) (t : TransactionExtract)
    (storedDate : String) : FinDB :=
  { db with transactions := db.transactions ++
      [{ user_id := user_id, amount := t.amount, category := t.category,
         description := t.description, type := t.type,
         payment_mode := t.payment_mode, date := storedDate }] }

/-- Does `b` match the `MERGE (b:Budget {user_id: ..., category: ...})`
pattern? -/
def budgetKeyIs (user_id category : String) (b : Budget) : Bool :=
  b.user_id == user_id && b.category == category

/-- The budget-list effect of `set_budget`'s Cypher `MERGE ... SET`: on a
key match `SET` updates the matched nodes' `monthly_limit`, otherwise one
node is created. -/
def set_budget_budgets (budgets : List Budget) (u catL : String) (lim : ℚ) :
    List Budget :=
  if budgets.any (budgetKeyIs u catL) then
    budgets.map (fun b =>
      if budgetKeyIs u catL b then { b with monthly_limit := lim } else b)
  else
    budgets ++ [⟨u, catL, lim⟩]

/-- `FinanceDB.set_budget` (neo4j_finance.py 125-148): the Cypher `MERGE`
matches on `(user_id, category.lower())` and the transaction store is
untouched. -/
def set_budget (db : FinDB) (user_id category : String) (monthly_limit : ℚ) :
    FinDB :=
  let catL : String := ⟨lowerChars category.data⟩
  { db with budgets := set_budget_budgets db.budgets user_id catL monthly_limit }

/-- Database states reachable through the write operations of
`db_/neo4j_finance.py` from an empty finance database. -/
inductive Reachable : FinDB → Prop where
  | empty : Reachable FinDB.empty
  | step_set_budget {db} (user_id category : String) (monthly_limit : ℚ) :
      Reachable db → Reachable (set_budget db user_id category monthly_limit)
  | step_add_transaction {db} (user_id : String) (t : TransactionExtract)
      (storedDate : String) :
      Reachable db → Reachable (add_transaction db user_id t storedDate)

/-! ## Spending analyzer (`smart_budget_manager/spending_analyser.py`) -/

/-- The per-budget `sum(COALESCE(t.amount, 0))` of `check_budget_status`:
all of the user's stored expense transactions in the budget's category,
with no restriction on `t.date`. -/
def expense_sum (db : FinDB) (user_id category : String) : ℚ :=
  ((db.transactions.filter (fun t =>
      t.user_id == user_id && t.category == some category &&
      t.type == "expense")).map (fun t => t.amount)).sum

/-- One row of the `check_budget_status` result. -/
structure BudgetRow where
  category : String
  budget : ℚ
  spent : ℚ
  usage_percent : ℚ
deriving DecidableEq

/-- The `RETURN` clause of `check_budget_status` for one budget. -/
def budget_row (db : FinDB) (user_id : String) (b : Budget) : BudgetRow :=
  let spent := expense_sum db user_id b.category
  { category := b.category, budget := b.monthly_limit, spent := spent,
    usage_percent := spent / b.monthly_limit * 100 }

/-- Insertion step of the `ORDER BY usage_percent DESC` sort. -/
def insertDescBy (key : α → ℚ) (x : α) : List α → List α
  | [] => [x]
  | y :: ys => if key y ≤ key x then x :: y :: ys else y :: insertDescBy key x ys

/-- `ORDER BY ... DESC` as an insertion sort. -/
def sortDescBy (key : α → ℚ) (l : List α) : List α :=
  l.foldr (insertDescBy key) []

/-- `SpendingAnalyzer.check_budget_status` (spending_analyser.py 80-115):
one row per `HAS_BUDGET` budget of the user, `spent` summed over ALL
matching expense transactions (the query has no date filter), usage
computed as `spent / b.monthly_limit * 100`, rows ordered by usage
descending. -/
def check_budget_status (db : FinDB) (user_id : String) : List BudgetRow :=
  sortDescBy (fun r => r.usage_percent)
    ((db.budgets.filter (fun b => b.user_id == user_id)).map
      (budget_row db user_id))

/-- One row of `get_monthly_spending`/`get_daily_summary` grouping output. -/
structure SpendRow where
  category : String
  total_spent : ℚ
  transaction_count : Nat
deriving DecidableEq

/-! ## Alert generator (`smart_budget_manager/alert_generator.py`) -/

/-- The alert text (if any) `AlertGenerator.generate_alert` contributes for
one budget row: tiers at 100, 90 and 75 percent, higher tier first. -/
def alert_for (fmt : PyFmt) (item : BudgetRow) : Option String :=
  if item.usage_percent ≥ 100 then
    some ("🚨 **BUDGET EXCEEDED**: " ++ pyUpper item.category ++ "\n" ++
      "   Spent: ₹" ++ fmt.f2 item.spent ++ " / ₹" ++ fmt.f2 item.budget ++
      " (" ++ fmt.f1 item.usage_percent ++ "%)\n" ++
      "   You\x27ve overspent by ₹" ++ fmt.f2 (item.spent - item.budget) ++ "!")
  else if item.usage_percent ≥ 90 then
    some ("⚠️  **WARNING**: " ++ pyUpper item.category ++ " budget at " ++
      fmt.f1 item.usage_percent ++ "%\n" ++
      "   Spent: ₹" ++ fmt.f2 item.spent ++ " / ₹" ++ fmt.f2 item.budget ++ "\n" ++
      "   Only ₹" ++ fmt.f2 (item.budget - item.spent) ++ " remaining!")
  else if item.usage_percent ≥ 75 then
    some ("ℹ️  " ++ pyCapitalize item.category ++ ": " ++
      fmt.f1 item.usage_percent ++ "% used (₹" ++ fmt.f2 item.spent ++
      " / ₹" ++ fmt.f2 item.budget ++ ")")
  else
    none

/-- `AlertGenerator.generate_alert` (alert_generator.py 7-35). -/
def generate_alert (fmt : PyFmt) (budget_status : List BudgetRow) :
    Option String :=
  let alerts := budget_status.filterMap (alert_for fmt)
  if alerts.isEmpty then none else some (String.intercalate "\n\n" alerts)

/-! ## Finance transaction handler (`agent/finance_agent.py`) -/

/-- finance_agent.py 32-35. -/
def today_keywords : List String :=
  ["today", "spent today", "expenses today", "transactions today",
   "today\x27s spending"]

/-- finance_agent.py 69-71. -/
def yesterday_keywords : List String :=
  ["yesterday", "spent yesterday", "yesterday\x27s spending"]

/-- finance_agent.py 102. -/
def week_keywords : List String :=
  ["last 7 days", "past week", "this week"]

/-- finance_agent.py 139-144. -/
def report_keywords : List String :=
  ["total spent", "how much spent", "spending", "expenses",
   "remaining", "left", "balance", "budget status",
   "monthly report", "spending report", "show spending",
   "how much did i spend", "what did i spend", "spent for"]

/-- finance_agent.py 200-202. -/
def transaction_keywords : List String :=
  ["spent", "paid", "bought", "purchased", "cost", "rupees", "₹", "rs"]

/-- `any(kw in query_lower for kw in kws)`. -/
def anyKeyword (query_lower : List Char) (kws : List String) : Bool :=
  kws.any (fun kw => containsSub kw.data query_lower)

/-- Category extraction of the spending-report branch
(finance_agent.py 148-152). -/
def report_category (query_lower : List Char) : Option String :=
  (["food", "transport", "shopping", "entertainment", "bills",
    "health", "education"] : List String).find?
    (fun cat => containsSub cat.data query_lower)

/-- One transaction row of the daily/weekly analyzer queries (`category`
comes back through `COALESCE(t.category, 'other')`, hence not optional;
the `payment_mode` column is never read by the handler). -/
structure TxnRow where
  date : String
  amount : ℚ
  category : String
  description : String
deriving DecidableEq

/-- `get_daily_summary` output (the `date` key is never read by the
handler). -/
structure DailySummary where
  total : ℚ
  by_category : List SpendRow
  transaction_count : Nat
deriving DecidableEq

/-- The external calls `finance_transaction_handler` makes, as oracle
values: each analyzer/database call is an `Except` (its branch catches
exceptions), `parse` is the `parse_transaction` outcome, `add_ok` is the
guarded `finance_db.add_transaction` call, `post_budget_status` the budget
check performed after a successful write. -/
structure FinanceOracle where
  today_data : Except String (DailySummary × List TxnRow)
  yesterday_data : Except String (DailySummary × List TxnRow)
  week_data : Except String (List TxnRow)
  month_data : Option String → Except String (List SpendRow × List BudgetRow)
  parse : Option TransactionExtract
  add_ok : Except String Bool
  post_budget_status : Except String (List BudgetRow)

/-- What the handler leaves behind: the appended `AIMessage` content, the
list of `add_transaction` invocations it performed, and the
`transaction_data`/`alert_message` state fields. -/
structure FinanceHandlerResult where
  appended : String
  dbWrites : List TransactionExtract
  transaction_data : Option TransactionExtract
  alert_message : Option String
deriving DecidableEq

def trouble_msg : String :=
  "⚠️ I\x27m having trouble accessing your financial data."

def trouble_long_msg : String :=
  "⚠️ I\x27m having trouble accessing your financial data. Please try again in a moment."

def could_not_parse_msg : String :=
  "I couldn\x27t understand that as a transaction. Please try: \x27Spent 50 on tea\x27 or \x27Paid 200 for auto\x27"

def db_error_msg : String :=
  "❌ Failed to log transaction due to a database error. Please try again."

def default_help_msg : String :=
  "I can help you track transactions or check your spending. Try:\n• \x27Spent 50 on tea\x27\n• \x27How much did I spend this month?\x27\n• \x27Show my budget status\x27"

/-- Success-path report of the today branch (finance_agent.py 51-64). -/
def today_report_text (fmt : PyFmt) (summary : DailySummary)
    (transactions : List TxnRow) : String :=
  let response := "📅 **Today\x27s Spending Report**\n\n" ++
    "**Total spent today:** ₹" ++ fmt.money summary.total ++ "\n" ++
    "**Transactions:** " ++ toString summary.transaction_count ++ "\n\n"
  let response := response ++
    (if !summary.by_category.isEmpty then
      "**By category:**\n" ++ String.join (summary.by_category.map (fun item =>
        "• " ++ pyCapitalize item.category ++ ": ₹" ++ fmt.money item.total_spent ++
        " (" ++ toString item.transaction_count ++ " transactions)\n"))
    else "")
  if transactions.length ≤ 5 then
    response ++ "\n**Individual Transactions:**\n" ++
      String.join (transactions.map (fun txn =>
        "• ₹" ++ fmt.f2 txn.amount ++ " - " ++ txn.description ++
        " (" ++ txn.category ++ ")\n"))
  else response

/-- Success-path report of the yesterday branch (finance_agent.py 89-96). -/
def yesterday_report_text (fmt : PyFmt) (summary : DailySummary) : String :=
  "📅 **Yesterday\x27s Spending Report**\n\n" ++
  "**Total spent:** ₹" ++ fmt.money summary.total ++ "\n" ++
  "**Transactions:** " ++ toString summary.transaction_count ++ "\n\n" ++
  (if !summary.by_category.isEmpty then
    "**By category:**\n" ++ String.join (summary.by_category.map (fun item =>
      "• " ++ pyCapitalize item.category ++ ": ₹" ++ fmt.money item.total_spent ++ "\n"))
  else "")

/-- Generic insertion for a boolean `le`. -/
def insertLeBy (le : α → α → Bool) (x : α) : List α → List α
  | [] => [x]
  | y :: ys => if le x y then x :: y :: ys else y :: insertLeBy le x ys

/-- Insertion sort for a boolean `le`. -/
def sortLeBy (le : α → α → Bool) (l : List α) : List α :=
  l.foldr (insertLeBy le) []

/-- Python `sorted(keys, reverse=True)` on date strings. -/
def sortedDescStr (l : List String) : List String :=
  sortLeBy (fun a b => decide (¬ a < b)) l

/-- Success-path report of the weekly branch (finance_agent.py 120-135):
group by the `YYYY-MM-DD` prefix, keys listed newest first. -/
def week_report_text (fmt : PyFmt) (transactions : List TxnRow) : String :=
  let total := (transactions.map (fun t => t.amount)).sum
  let response := "📊 **Last 7 Days Spending**\n\n" ++
    "**Total:** ₹" ++ fmt.money total ++ " (" ++
    toString transactions.length ++ " transactions)\n\n" ++
    "**Daily Breakdown:**\n"
  let dates := sortedDescStr ((transactions.map (fun t => t.date.take 10)).dedup)
  response ++ String.join (dates.map (fun d =>
    let day := transactions.filter (fun t => t.date.take 10 == d)
    "• " ++ d ++ ": ₹" ++ fmt.money ((day.map (fun t => t.amount)).sum) ++
    " (" ++ toString day.length ++ " txns)\n"))

/-- Success-path report of the spending-report branch
(finance_agent.py 168-195), budget lines tiered at 100/75 percent. -/
def month_report_text (fmt : PyFmt) (spending_data : List SpendRow)
    (budget_status : List BudgetRow) : String :=
  let total := (spending_data.map (fun i => i.total_spent)).sum
  let response := "📊 **Spending Summary**\n\n" ++
    "**Total spent this month:** ₹" ++ fmt.money total ++ "\n\n"
  let response := response ++
    (if !spending_data.isEmpty then
      "**By category:**\n" ++ String.join (spending_data.map (fun item =>
        "• " ++ pyCapitalize item.category ++ ": ₹" ++ fmt.money item.total_spent ++
        " (" ++ toString item.transaction_count ++ " transactions)\n"))
    else "")
  if !budget_status.isEmpty then
    response ++ "\n**Budget Status:**\n" ++
      String.join (budget_status.map (fun item =>
        let emoji := if item.usage_percent ≥ 100 then "🚨"
          else if item.usage_percent ≥ 75 then "⚠️" else "✅"
        emoji ++ " " ++ pyCapitalize item.category ++ ": ₹" ++
        fmt.money item.spent ++ " / ₹" ++ fmt.money item.budget ++
        " (" ++ fmt.f1 item.usage_percent ++ "% used, ₹" ++
        fmt.money (item.budget - item.spent) ++ " remaining)\n"))
  else response

/-- `finance_transaction_handler` (finance_agent.py 18-250): the five
keyword-dispatched branches in source order.  `parse_transaction` is only
invoked in the transaction branch, and `finance_db.add_transaction` only
when it produced a strictly positive amount. -/
def finance_transaction_handler (last_message : String) (fmt : PyFmt)
    (o : FinanceOracle) : FinanceHandlerResult :=
  let query_lower := lowerChars last_message.data
  if anyKeyword query_lower today_keywords then
    match o.today_data with
    | Except.error _ => ⟨trouble_msg, [], none, none⟩
    | Except.ok (summary, transactions) =>
      ⟨if summary.total = 0 then
        "You haven\x27t logged any transactions today yet."
      else today_report_text fmt summary transactions, [], none, none⟩
  else if anyKeyword query_lower yesterday_keywords then
    match o.yesterday_data with
    | Except.error _ => ⟨trouble_msg, [], none, none⟩
    | Except.ok (summary, _transactions) =>
      ⟨if summary.total = 0 then
        "You didn\x27t log any transactions yesterday."
      else yesterday_report_text fmt summary, [], none, none⟩
  else if anyKeyword query_lower week_keywords then
    match o.week_data with
    | Except.error _ => ⟨trouble_msg, [], none, none⟩
    | Except.ok transactions =>
      ⟨if transactions.isEmpty then
        "No transactions in the last 7 days."
      else week_report_text fmt transactions, [], none, none⟩
  else if anyKeyword query_lower report_keywords then
    match o.month_data (report_category query_lower) with
    | Except.error _ => ⟨trouble_long_msg, [], none, none⟩
    | Except.ok (spending_data, budget_status) =>
      ⟨if spending_data.isEmpty then
        "You haven\x27t logged any transactions yet this month."
      else month_report_text fmt spending_data budget_status, [], none, none⟩
  else if anyKeyword query_lower transaction_keywords then
    match o.parse with
    | some transaction =>
      if transaction.amount > 0 then
        let success := match o.add_ok with
          | Except.ok b => b
          | Except.error _ => false
        if success then
          let alert := match o.post_budget_status with
            | Except.ok rows => generate_alert fmt rows
            | Except.error _ => none
          let response := "✅ Transaction logged: ₹" ++
            fmt.plain transaction.amount ++ " for " ++ transaction.description
          let response := response ++ (match transaction.category with
            | some c => if c == "" then "" else " (" ++ c ++ ")"
            | none => "")
          let response := response ++ (match alert with
            | some a => "\n\n" ++ a
            | none => "")
          ⟨response, [transaction], some transaction, alert⟩
        else
          ⟨db_error_msg, [transaction], none, none⟩
      else
        ⟨could_not_parse_msg, [], none, none⟩
    | none => ⟨could_not_parse_msg, [], none, none⟩
  else
    ⟨default_help_msg, [], none, none⟩

/-! ## Budget setup handler (`agent/finance_agent.py` 253-311) -/

/-- The structured output `BudgetIntent`. -/
structure BudgetIntent where
  category : String
  limit : ℚ
deriving DecidableEq

def budget_parse_error_msg : String :=
  "I couldn\x27t understand that budget request. Please try: \x27Set food budget to 5000\x27"

def budget_db_error_msg : String :=
  "❌ Failed to set budget due to a database error. Please try again."

/-- `handle_budget_setup` response logic: `intent` is the structured-output
parse (its exception is the outer `try`), `set_ok` the inner-guarded
`finance_db.set_budget` call. -/
def handle_budget_setup (intent : Except String BudgetIntent)
    (set_ok : Except String Bool) (fmt : PyFmt) : String :=
  match intent with
  | Except.error _ => budget_parse_error_msg
  | Except.ok budget_intent =>
    let success := match set_ok with
      | Except.ok b => b
      | Except.error _ => false
    if success then
      "✅ Budget set successfully!\n" ++
      "   Category: " ++ pyCapitalize budget_intent.category ++ "\n" ++
      "   Monthly Limit: ₹" ++ fmt.money budget_intent.limit
    else budget_db_error_msg

/-! ## Greeting handler (`feature_router/router.py` 43-172) -/

/-- `_get_english_greeting` (router.py 87-125). -/
def get_english_greeting (has_transactions : Bool) : String :=
  "👋 **Hello! I\x27m FinGuard** - Your Personal Finance Assistant\n\n" ++
  (if has_transactions then "**Welcome back!** I can help you with:\n\n"
   else "**Nice to meet you!** I\x27m here to help with:\n\n") ++
  "🏛️ **Government Schemes**
   • Check eligibility for schemes
   • Learn about benefits & subsidies
   • Get application guidance

💰 **Finance Tracking**
   • Log your expenses (e.g., \"spent 50 on tea\")
   • Check spending reports (\"how much spent this month?\")
   • Set budgets for different categories

🛡️ **Scam Detection**
   • Analyze suspicious messages
   • Learn about common scams
   • Stay safe from fraud

💡 **Financial Education**
   • Understand FD, PPF, mutual funds
   • Get personalized advice
   • Learn about investments

**How can I help you today?**

*Try asking:*
• \"What is FD?\"
• \"Show my spending\"
• \"Am I eligible for MUDRA loan?\"
• \"Check if this message is a scam\"
"

/-- `_get_hinglish_greeting` (router.py 128-166). -/
def get_hinglish_greeting (has_transactions : Bool) : String :=
  "👋 **Namaste! Main FinGuard hoon** - Aapka Personal Finance Assistant\n\n" ++
  (if has_transactions then "**Welcome back!** Main aapki help kar sakta hoon:\n\n"
   else "**Aapse mil ke achha laga!** Main yeh sab kar sakta hoon:\n\n") ++
  "🏛️ **Government Schemes**
   • Schemes ke liye eligibility check karo
   • Benefits aur subsidies ke baare mein jaano
   • Application guidance lo

💰 **Finance Tracking**
   • Expenses log karo (jaise \"spent 50 on tea\")
   • Spending reports dekho (\"kitna spend kiya is mahine?\")
   • Alag categories ke liye budget set karo

🛡️ **Scam Detection**
   • Suspicious messages analyze karo
   • Common scams ke baare mein jaano
   • Fraud se bach ke raho

💡 **Financial Education**
   • FD, PPF, mutual funds samjho
   • Personalized advice lo
   • Investments ke baare mein seekho

**Aaj main aapki kaise madad kar sakta hoon?**

*Try karo ye questions:*
• \"FD kya hai?\"
• \"Mera spending dikha\"
• \"Kya main MUDRA loan ke liye eligible hoon?\"
• \"Check karo kya ye message scam hai\"
"

/-- `_get_hindi_greeting` (router.py 169-172) returns the Hinglish text. -/
def get_hindi_greeting (has_transactions : Bool) : String :=
  get_hinglish_greeting has_transactions

/-- `handle_greeting` (router.py 43-85).  Language detection is the external
language handler; `should_respond_in` is the label it produced.
`monthly_spending` is the guarded `get_monthly_spending` lookup: an
exception, or an empty summary, yields `has_transactions = False`. -/
def handle_greeting (should_respond_in : String)
    (monthly_spending : Except String (List SpendRow)) : Envelope :=
  let has_transactions := match monthly_spending with
    | Except.ok summary => !summary.isEmpty
    | Except.error _ => false
  let greeting :=
    if should_respond_in == "hinglish" then get_hinglish_greeting has_transactions
    else if should_respond_in == "hindi" then get_hindi_greeting has_transactions
    else get_english_greeting has_transactions
  { answer := greeting, type := "greeting" }

/-! ## Remaining router handlers (`feature_router/router.py` 403-704) -/

/-- `handle_scam_analysis` response formatting (router.py 548-581). -/
def format_scam_response (fmt : PyFmt) (result : ScamAnalysis) : String :=
  let ev : String × String :=
    if result.risk_level == "CRITICAL" then ("🚨", "**HIGHLY LIKELY A SCAM**")
    else if result.risk_level == "HIGH" then ("⛔", "**LIKELY A SCAM**")
    else if result.risk_level == "MEDIUM" then ("⚠️", "**SUSPICIOUS - EXERCISE CAUTION**")
    else ("✅", "**APPEARS SAFE** (but stay vigilant)")
  let response := ev.1 ++ " **Scam Analysis Report**\n\n" ++
    "**Verdict:** " ++ ev.2 ++ "\n" ++
    "**Risk Level:** " ++ result.risk_level ++ "\n" ++
    "**Confidence:** " ++ fmt.pct0 result.confidence ++ "\n\n"
  let response := response ++ (match result.scam_type with
    | some st => if st == "" then "" else "**Scam Type:** " ++ st ++ "\n\n"
    | none => "")
  let response := response ++
    (if !result.red_flags.isEmpty then
      "**⚠️ Red Flags Detected:**\n" ++
      String.join ((result.red_flags.take 5).map (fun flag => "  • " ++ flag ++ "\n")) ++
      "\n"
    else "")
  response ++ "**💡 Recommendation:**\n" ++ result.recommendation ++ "\n\n" ++
    "**🛡️ General Safety Tips:**\n" ++
    "• Never share OTP, PIN, CVV, or passwords\n" ++
    "• Banks never ask for sensitive info via SMS/call\n" ++
    "• Verify with official sources before acting\n" ++
    "• Be cautious of urgent/threatening messages\n"

def scam_analysis_error_msg : String :=
  "⚠️ I encountered an error while analyzing this message. Please verify any suspicious content with official sources before taking action."

/-- The fixed `handle_scam_education` text (router.py 599-643). -/
def scam_education_text : String :=
  "🛡️ **Scam Awareness & Protection**

**Common Scam Types in India:**

1. **📱 OTP/Banking Scams**
   • Never share OTP, PIN, CVV with anyone
   • Banks NEVER ask for these via call/SMS

2. **🎁 Fake Prize/Lottery Scams**
   • \"You won a lottery\" - you didn\x27t enter
   • Asking for \"processing fee\" to claim prize

3. **🏦 Phishing (Fake Banks/Govt)**
   • Emails/SMS from fake bank websites
   • \"KYC update required\" with suspicious links

4. **📦 Fake Delivery Scams**
   • \"Courier stuck, pay customs fee\"
   • Fake tracking links

5. **💰 Investment Frauds**
   • \"Guaranteed returns\" schemes
   • Ponzi/pyramid schemes

6. **❤️ Romance Scams**
   • Online relationships leading to money requests

**🚨 Red Flags to Watch For:**
• Urgent/threatening language
• Too-good-to-be-true offers
• Requests for sensitive information
• Suspicious links (verify domain)
• Poor grammar in \"official\" messages
• Pressure to act immediately

**✅ How to Protect Yourself:**
1. Verify sender through official channels
2. Never click unknown links
3. Use two-factor authentication
4. Keep software updated
5. Report suspicious activity to Cyber Cell (1930)

**Need me to analyze a specific message?**
Just send it to me and I\x27ll check if it\x27s a scam!
"

def concept_error_msg : String :=
  "I\x27m having trouble explaining that concept right now. Could you rephrase your question?"

/-- Hour-window extraction of `handle_email_scam_request`
(router.py 653-663). -/
def email_scam_hours (query : String) : Nat :=
  let query_lower := lowerChars query.data
  if containsSub "today".data query_lower then 12
  else if containsSub "yesterday".data query_lower then 48
  else if containsSub "week".data query_lower ||
      containsSub "last 7 days".data query_lower then 168
  else 24

/-- Hour-window extraction of `handle_email_payment_request`
(router.py 680-692). -/
def email_payment_hours (query : String) : Nat :=
  let query_lower := lowerChars query.data
  if containsSub "today".data query_lower then 12
  else if containsSub "yesterday".data query_lower then 48
  else if containsSub "week".data query_lower ||
      containsSub "last 7 days".data query_lower then 168
  else if containsSub "month".data query_lower then 720
  else 24

/-! ## The feature router (`feature_router/router.py` 336-401) -/

/-- The `0.6` confidence threshold of the low-confidence fallback, given by
numerator and denominator so that concrete comparisons kernel-reduce;
`low_confidence_threshold_eq` below checks it is `3/5 = 0.6`. -/
def low_confidence_threshold : ℚ := ⟨3, 5, by norm_num, by norm_num⟩

/-- Every external call a `router_feature` request can make, as oracle
values.  `sessionData` is the calling user's `sessions` entry (the dict is
keyed on `user_id`); `should_respond_in` the language-handler output;
`concept` the concept-explanation sub-handler (its answer, or the caught
exception); `email_*_answer` the formatted answers of the email handlers
given the extracted hour window. -/
structure RouterOracle where
  classifierInvoke : Nat → Except String QueryClassification
  graphInvoke : Except String GraphResult
  update_summary : String → List Message → String
  sessionData : SessionData
  fmt : PyFmt
  should_respond_in : String
  greet_spending : Except String (List SpendRow)
  finance : FinanceOracle
  budget_intent : Except String BudgetIntent
  budget_set_ok : Except String Bool
  scam_detector_init : Except String Unit
  scam_llm : Except String ScamAnalysis
  concept : Except String String
  email_scam_answer : Nat → String
  email_payment_answer : Nat → String

/-- What one `router_feature` call produces: the returned envelope (or the
exception it propagates) and the user's session entry afterwards. -/
structure RouterResult where
  result : Except String Envelope
  newSession : SessionData

/-- `router_feature` (router.py 336-401): classify, then dispatch on the
category; the greeting check and the `confidence < 0.6` schemes fallback
live only in the final `else` branch, which the `Literal` category type
reserves for `general_conversation`. -/
def router_feature (query : String) (o : RouterOracle) : RouterResult :=
  let classification := classify_query o.classifierInvoke
  match classification.category with
  | Category.government_schemes =>
    let r := run_agent query o.graphInvoke o.update_summary o.sessionData
    { result := r.result, newSession := r.newSession }
  | Category.transaction_logging =>
    let fr := finance_transaction_handler query o.fmt o.finance
    { result := Except.ok { answer := fr.appended, type := "finance" },
      newSession := o.sessionData }
  | Category.spending_query =>
    let fr := finance_transaction_handler query o.fmt o.finance
    { result := Except.ok { answer := fr.appended, type := "spending_report" },
      newSession := o.sessionData }
  | Category.budget_setup =>
    { result := Except.ok
        { answer := handle_budget_setup o.budget_intent o.budget_set_ok o.fmt,
          type := "budget_setup" },
      newSession := o.sessionData }
  | Category.scam_analysis =>
    { result := Except.ok (match o.scam_detector_init with
        | Except.error _ =>
          { answer := scam_analysis_error_msg, type := "scam_analysis_error" }
        | Except.ok _ =>
          { answer := format_scam_response o.fmt (detect_scam query o.scam_llm),
            type := "scam_analysis" }),
      newSession := o.sessionData }
  | Category.scam_detection =>
    { result := Except.ok { answer := scam_education_text, type := "scam_education" },
      newSession := o.sessionData }
  | Category.concept_explanation =>
    { result := Except.ok (match o.concept with
        | Except.ok ans => { answer := ans, type := "concept_explanation" }
        | Except.error _ =>
          { answer := concept_error_msg, type := "concept_explanation_error" }),
      newSession := o.sessionData }
  | Category.email_scam_check =>
    { result := Except.ok
        { answer := o.email_scam_answer (email_scam_hours query),
          type := "email_scam_check" },
      newSession := o.sessionData }
  | Category.email_payment_extraction =>
    { result := Except.ok
        { answer := o.email_payment_answer (email_payment_hours query),
          type := "email_payment_extraction" },
      newSession := o.sessionData }
  | Category.general_conversation =>
    if is_greeting query then
      { result := Except.ok (handle_greeting o.should_respond_in o.greet_spending),
        newSession := o.sessionData }
    else if classification.confidence < low_confidence_threshold then
      let r := run_agent query o.graphInvoke o.update_summary o.sessionData
      { result := r.result, newSession := r.newSession }
    else
      { result := Except.ok (handle_greeting o.should_respond_in o.greet_spending),
        newSession := o.sessionData }

/-! ## Spec-side definitions used to state the claims -/

/-- Spec wording of claim C3: the number of red-flag keyword CATEGORIES
with at least one keyword occurring in the lower-cased message (the source
counts individual keyword hits instead). -/
def matchedCategoryCount (message : String) : Nat :=
  let message_lower := lowerChars message.data
  (red_flag_keywords.filter
    (fun ck => ck.2.any (fun kw => containsSub kw.data message_lower))).length

/-- The corrected tier table of claim C3, indexed by the number of matched
red-flag keyword occurrences (one per `(category, keyword)` pair):
`≥ 4` CRITICAL, exactly `2` or `3` HIGH, exactly `1` MEDIUM, `0` LOW. -/
def fallback_tier_spec (n : Nat) : String :=
  if 4 ≤ n then "CRITICAL"
  else if n = 2 ∨ n = 3 then "HIGH"
  else if n = 1 then "MEDIUM"
  else "LOW"

/-- Rewrite every stored transaction's date (used to state that
`check_budget_status` is insensitive to dates). -/
def mapTxnDates (f : String → String) (db : FinDB) : FinDB :=
  { db with transactions := db.transactions.map (fun t => { t with date := f t.date }) }

/-- The `(user_id, category)` key of a `Budget` node. -/
def budgetKey (b : Budget) : String × String :=
  (b.user_id, b.category)

/-- At most one `Budget` node per `(user_id, category)` pair. -/
def BudgetKeyUnique (db : FinDB) : Prop :=
  db.budgets.Pairwise (fun a b => budgetKey a ≠ budgetKey b)

/-- The `monthly_limit`s of every budget stored under a given key. -/
def budget_limits_for (db : FinDB) (user_id category : String) : List ℚ :=
  (db.budgets.filter (budgetKeyIs user_id category)).map (fun b => b.monthly_limit)

/-! ## Concrete fixtures for the closed witness/counterexample statements -/

/-- A confidence of `1/2 = 0.5`, below the fallback threshold, given by
numerator and denominator so comparisons kernel-reduce. -/
def half_conf : ℚ := ⟨1, 2, by norm_num, by norm_num⟩

/-- Placeholder float formatting for concrete runs (no claim depends on
rendered digits). -/
def testFmt : PyFmt :=
  { money := fun _ => "#", f2 := fun _ => "#", f1 := fun _ => "#",
    pct0 := fun _ => "#", plain := fun _ => "#" }

/-- A finance oracle whose analyzer calls fail and whose parse returns
nothing. -/
def testFinanceOracle : FinanceOracle :=
  { today_data := Except.error "db down"
    yesterday_data := Except.error "db down"
    week_data := Except.error "db down"
    month_data := fun _ => Except.error "db down"
    parse := none
    add_ok := Except.ok true
    post_budget_status := Except.ok [] }

/-- A graph invocation that succeeds with a single AI message. -/
def testGraphResult : GraphResult :=
  { messages := [⟨Role.ai, "scheme answer"⟩] }

/-- A full router oracle around a given classifier outcome. -/
def testOracle (c : Except String QueryClassification) : RouterOracle :=
  { classifierInvoke := fun _ => c
    graphInvoke := Except.ok testGraphResult
    update_summary := fun m _ => m
    sessionData := initSession
    fmt := testFmt
    should_respond_in := "english"
    greet_spending := Except.error "db down"
    finance := testFinanceOracle
    budget_intent := Except.error "llm down"
    budget_set_ok := Except.ok true
    scam_detector_init := Except.ok ()
    scam_llm := Except.error "llm down"
    concept := Except.ok "concept answer"
    email_scam_answer := fun _ => "email scam report"
    email_payment_answer := fun _ => "email payment report" }

/-- A one-budget, one-transaction finance database for witnesses. -/
def testDB : FinDB :=
  { budgets := [⟨"u1", "food", 200⟩]
    transactions := [⟨"u1", 50, some "food", "tea", "expense", none, "2025-01-01T00:00:00"⟩] }

/-- The classifier outcome of the C2 counterexample: `transaction_logging`
at confidence `0.5 < 0.6`. -/
def c2_class : QueryClassification :=
  { category := Category.transaction_logging, confidence := half_conf,
    reasoning := "records a transaction" }

/-- The message of the C3 counterexample: four keywords of the single
red-flag category `urgent`. -/
def c3_message : String := "urgent immediately expire hurry"

/-- The classifier outcome of the C5 failing input. -/
def c5_class : QueryClassification :=
  { category := Category.government_schemes, confidence := 9/10,
    reasoning := "scheme eligibility" }

/-- The C5 oracle: a `government_schemes` classification whose agent-graph
invocation raises. -/
def c5_oracle : RouterOracle :=
  { testOracle (Except.ok c5_class) with
    graphInvoke := Except.error "APIConnectionError" }

/-- The classification later classifier attempts would return. -/
def c7_retry_class : QueryClassification :=
  { category := Category.budget_setup, confidence := 9/10,
    reasoning := "would succeed on retry" }

/-- A classifier oracle whose first call fails but whose later calls would
succeed (they are never made). -/
def c7_retry_oracle : Nat → Except String QueryClassification :=
  fun n => if n = 0 then Except.error "rate limited" else Except.ok c7_retry_class

/-! # Theorems -/

/-- Sanity check: the threshold constant is the source's `0.6`. -/
theorem low_confidence_threshold_eq : low_confidence_threshold = 3 / 5 := by
  rw [low_confidence_threshold, Rat.mk'_eq_divInt, Rat.divInt_eq_div]
  norm_num

/-- Sanity check: `half_conf` is `0.5`. -/
theorem half_conf_eq : half_conf = 1 / 2 := by
  rw [half_conf, Rat.mk'_eq_divInt, Rat.divInt_eq_div]
  norm_num

/-- Claim C1, counterexample: `"hi"` matches the greeting heuristic, yet
when the classifier labels it `government_schemes` (confidence `0.9`),
`router_feature` dispatches to `run_agent` and the envelope `type` is
`"schemes"`, not `"greeting"` — the greeting check only runs in the
`general_conversation` branch. -/
theorem c1_counterexample :
    is_greeting "hi" = true ∧
    (router_feature "hi" (testOracle (Except.ok
        { category := Category.government_schemes, confidence := 9/10,
          reasoning := "mentions schemes" }))).result =
      Except.ok { answer := "scheme answer", type := "schemes" } ∧
    ("schemes" : String) ≠ "greeting" :=
  ⟨by decide, rfl, by decide⟩

/-- Claim C1, amended: for every query matching the greeting heuristic AND
classified `general_conversation`, `router_feature` returns the greeting
envelope, whose `type` is `"greeting"`, regardless of the classifier's
confidence. -/
theorem c1_amended (query : String) (o : RouterOracle)
    (hcat : (classify_query o.classifierInvoke).category =
      Category.general_conversation)
    (hg : is_greeting query = true) :
    (router_feature query o).result =
      Except.ok (handle_greeting o.should_respond_in o.greet_spending) ∧
    (handle_greeting o.should_respond_in o.greet_spending).type = "greeting" := by
  refine ⟨?_, rfl⟩
  unfold router_feature
  simp only [hcat, hg, if_true]

/-- Witness for `c1_amended` at query `"hi"`. -/
theorem c1_amended_witness :
    (router_feature "hi" (testOracle (Except.ok
        { category := Category.general_conversation, confidence := 9/10,
          reasoning := "a greeting" }))).result =
      Except.ok (handle_greeting "english" (Except.error "db down")) ∧
    (handle_greeting "english" (Except.error "db down")).type = "greeting" :=
  c1_amended "hi" _ rfl (by decide)

/-- Claim C2, counterexample: `"spent 50 on tea"` does not match the
greeting heuristic and the classifier reports confidence `0.5 < 0.6`, but
with category `transaction_logging` the router dispatches to the finance
handler (envelope `type` `"finance"`), not to `run_agent` (whose envelope
here would be the `"schemes"` one): the low-confidence fallback only runs
in the `general_conversation` branch. -/
theorem c2_counterexample :
    is_greeting "spent 50 on tea" = false ∧
    half_conf < low_confidence_threshold ∧
    (router_feature "spent 50 on tea" (testOracle (Except.ok c2_class))).result =
      Except.ok { answer := could_not_parse_msg, type := "finance" } ∧
    (run_agent "spent 50 on tea" (testOracle (Except.ok c2_class)).graphInvoke
        (testOracle (Except.ok c2_class)).update_summary
        (testOracle (Except.ok c2_class)).sessionData).result =
      Except.ok { answer := "scheme answer", type := "schemes" } ∧
    ("finance" : String) ≠ "schemes" :=
  ⟨by decide, by decide, rfl, rfl, by decide⟩

/-- Claim C2, amended: when the classifier returns `general_conversation`
with confidence strictly below `0.6` and the query does not match the
greeting heuristic, `router_feature` dispatches to `run_agent` (same
envelope/exception and same session update). -/
theorem c2_amended (query : String) (o : RouterOracle)
    (hcat : (classify_query o.classifierInvoke).category =
      Category.general_conversation)
    (hg : is_greeting query = false)
    (hconf : (classify_query o.classifierInvoke).confidence <
      low_confidence_threshold) :
    (router_feature query o).result =
      (run_agent query o.graphInvoke o.update_summary o.sessionData).result ∧
    (router_feature query o).newSession =
      (run_agent query o.graphInvoke o.update_summary o.sessionData).newSession := by
  unfold router_feature
  simp only [hcat, hg, Bool.false_eq_true, if_false, if_pos hconf]
  trivial

/-- Witness for `c2_amended`: a low-confidence `general_conversation`
classification of a non-greeting query. -/
theorem c2_amended_witness :
    (router_feature "spent 50 on tea" (testOracle (Except.ok
        { category := Category.general_conversation, confidence := half_conf,
          reasoning := "unclear" }))).result =
      (run_agent "spent 50 on tea" (Except.ok testGraphResult)
        (testOracle (Except.ok
          { category := Category.general_conversation, confidence := half_conf,
            reasoning := "unclear" })).update_summary initSession).result ∧
    (router_feature "spent 50 on tea" (testOracle (Except.ok
        { category := Category.general_conversation, confidence := half_conf,
          reasoning := "unclear" }))).newSession =
      (run_agent "spent 50 on tea" (Except.ok testGraphResult)
        (testOracle (Except.ok
          { category := Category.general_conversation, confidence := half_conf,
            reasoning := "unclear" })).update_summary initSession).newSession :=
  c2_amended "spent 50 on tea" _ rfl (by decide) (by decide)

/-- Claim C3, counterexample: `"urgent immediately expire hurry"` matches
exactly ONE red-flag keyword category (so the claim, counting categories,
predicts MEDIUM), but the fallback counts the four individual keyword hits
and assigns CRITICAL. -/
theorem c3_counterexample :
    matchedCategoryCount c3_message = 1 ∧
    (detect_scam c3_message (Except.error "LLM down")).risk_level = "CRITICAL" ∧
    ("CRITICAL" : String) ≠ "MEDIUM" :=
  ⟨by decide, by decide, by decide⟩

/-- Claim C3, amended: when the scam-detection LLM call fails, the fallback
risk level is determined by the NUMBER OF MATCHED RED-FLAG KEYWORD
OCCURRENCES (one per `(category, keyword)` pair, several per category
possible): `≥ 4` CRITICAL, exactly `2`-`3` HIGH, exactly `1` MEDIUM,
`0` LOW. -/
theorem c3_amended (message e : String) :
    (detect_scam message (Except.error e)).risk_level =
      fallback_tier_spec (detect_red_flags message).length := by
  show (fallback_analysis message (detect_red_flags message)).risk_level = _
  simp only [fallback_analysis, fallback_tier_spec]
  split_ifs <;> first | rfl | omega

/-- Claim C5 evaluated at a failing input (status: code bug): a query
classified `government_schemes` whose agent-graph invocation raises makes
`run_agent` raise `UnboundLocalError` at its `return` statement (which
reads the unassigned `res`), so `router_feature` propagates an exception
and NO envelope is returned — even though the `except` branch had prepared
the apology answer and updated the session (second conjunct). -/
theorem c5_error_path_raises :
    (router_feature "am i eligible for mudra loan" c5_oracle).result =
      Except.error
        "UnboundLocalError: local variable \x27res\x27 referenced before assignment" ∧
    (router_feature "am i eligible for mudra loan" c5_oracle).newSession.session =
      [⟨Role.human, "am i eligible for mudra loan"⟩, ⟨Role.ai, run_agent_apology⟩] :=
  ⟨rfl, rfl⟩

/-- Claim C7: if the classification chain raises, `classify_query` returns
the `general_conversation`/`0.5` fallback instead of propagating, and only
the first invocation outcome is ever consulted (any oracle agreeing on
call `0` yields the same classification — no retry). -/
theorem c7_classify_fallback (o o2 : Nat → Except String QueryClassification)
    (e : String) (h : o 0 = Except.error e) (h2 : o2 0 = o 0) :
    classify_query o = fallback_classification e ∧
    (classify_query o).category = Category.general_conversation ∧
    (classify_query o).confidence = 1/2 ∧
    classify_query o2 = classify_query o := by
  unfold classify_query
  rw [h2, h]
  exact ⟨rfl, rfl, rfl, rfl⟩

/-- Witness for `c7_classify_fallback`: the first call fails; a second
attempt would have succeeded but is never consulted. -/
theorem c7_witness :
    classify_query (fun _ => Except.error "rate limited") =
      fallback_classification "rate limited" ∧
    (classify_query (fun _ => Except.error "rate limited")).category =
      Category.general_conversation ∧
    (classify_query (fun _ => Except.error "rate limited")).confidence = 1/2 ∧
    classify_query c7_retry_oracle =
      classify_query (fun _ => Except.error "rate limited") :=
  c7_classify_fallback _ _ "rate limited" rfl rfl

/-- Claim C6: for every message that the handler's keyword routing sends to
the transaction branch, if the parser returns no result or a non-positive
amount, then `add_transaction` is never invoked and the appended response
is the fixed could-not-parse message. -/
theorem c6_no_write_on_bad_parse (msg : String) (fmt : PyFmt) (o : FinanceOracle)
    (htoday : anyKeyword (lowerChars msg.data) today_keywords = false)
    (hyest : anyKeyword (lowerChars msg.data) yesterday_keywords = false)
    (hweek : anyKeyword (lowerChars msg.data) week_keywords = false)
    (hreport : anyKeyword (lowerChars msg.data) report_keywords = false)
    (htxn : anyKeyword (lowerChars msg.data) transaction_keywords = true)
    (hbad : o.parse = none ∨ ∃ t, o.parse = some t ∧ ¬ (t.amount > 0)) :
    (finance_transaction_handler msg fmt o).dbWrites = [] ∧
    (finance_transaction_handler msg fmt o).appended = could_not_parse_msg := by
  unfold finance_transaction_handler
  simp only [htoday, hyest, hweek, hreport, htxn, Bool.false_eq_true, if_false,
    if_true]
  rcases hbad with h | ⟨t, ht, hle⟩
  · rw [h]
    refine ⟨?_, ?_⟩ <;> trivial
  · rw [ht]
    simp only [if_neg hle]
    refine ⟨?_, ?_⟩ <;> trivial

/-- Witness for `c6_no_write_on_bad_parse`: an unparseable transaction
message. -/
theorem c6_witness :
    (finance_transaction_handler "spent abc on tea" testFmt
      testFinanceOracle).dbWrites = [] ∧
    (finance_transaction_handler "spent abc on tea" testFmt
      testFinanceOracle).appended = could_not_parse_msg :=
  c6_no_write_on_bad_parse "spent abc on tea" testFmt testFinanceOracle
    (by decide) (by decide) (by decide) (by decide) (by decide) (Or.inl rfl)

/-- The session entry of one `run_agent` call, written directly: the turn's
two messages are appended; above ten entries the window drops to the last
four and the memory is recomputed.  The existential carries the assistant
answer (which depends on the graph outcome). -/
theorem run_agent_newSession (user_input : String)
    (invoke : Except String GraphResult)
    (upd : String → List Message → String) (sd : SessionData) :
    ∃ ans : String,
      (run_agent user_input invoke upd sd).newSession =
        (if (sd.session ++ [Message.mk Role.human user_input, Message.mk Role.ai ans]).length > 10 then
          { session := lastN 4 (sd.session ++ [Message.mk Role.human user_input, Message.mk Role.ai ans]),
            memory := upd sd.memory
              (sd.session ++ [Message.mk Role.human user_input, Message.mk Role.ai ans]) }
        else
          { sd with session := sd.session ++ [Message.mk Role.human user_input, Message.mk Role.ai ans] }) := by
  rcases invoke with e | r
  · exact ⟨run_agent_apology, rfl⟩
  · rcases h : r.messages.getLast? with _ | m
    · refine ⟨run_agent_apology, ?_⟩
      simp only [run_agent, h]
    · refine ⟨m.content, ?_⟩
      simp only [run_agent, h]

/-- Claim C9: after each `run_agent` call the stored session holds at most
10 messages; the turn's user and assistant messages are appended; whenever
the appended list exceeds 10 entries it is truncated to exactly the most
recent 4 while the summariser folds the messages into the memory text. -/
theorem c9_session_window (user_input : String)
    (invoke : Except String GraphResult)
    (upd : String → List Message → String) (sd : SessionData) :
    (run_agent user_input invoke upd sd).newSession.session.length ≤ 10 ∧
    (∃ ans : String,
      (sd.session.length + 2 > 10 →
        (run_agent user_input invoke upd sd).newSession.session =
          lastN 4 (sd.session ++ [Message.mk Role.human user_input, Message.mk Role.ai ans]) ∧
        (run_agent user_input invoke upd sd).newSession.session.length = 4 ∧
        (run_agent user_input invoke upd sd).newSession.memory =
          upd sd.memory (sd.session ++ [Message.mk Role.human user_input, Message.mk Role.ai ans])) ∧
      (sd.session.length + 2 ≤ 10 →
        (run_agent user_input invoke upd sd).newSession.session =
          sd.session ++ [Message.mk Role.human user_input, Message.mk Role.ai ans])) := by
  obtain ⟨ans, hns⟩ := run_agent_newSession user_input invoke upd sd
  have hlen : (sd.session ++ [Message.mk Role.human user_input, Message.mk Role.ai ans]).length =
      sd.session.length + 2 := by
    rw [List.length_append]
    rfl
  constructor
  · rw [hns]
    split_ifs with h
    · simp only [lastN, List.length_drop]
      omega
    · show (sd.session ++ [Message.mk Role.human user_input,
          Message.mk Role.ai ans]).length ≤ 10
      omega
  · refine ⟨ans, ?_, ?_⟩
    · intro hbig
      rw [hns, if_pos (by omega : (sd.session ++ [Message.mk Role.human user_input, Message.mk Role.ai ans]).length > 10)]
      refine ⟨rfl, ?_, rfl⟩
      simp only [lastN, List.length_drop]
      omega
    · intro hsmall
      rw [hns, if_neg (by omega : ¬ (sd.session ++ [Message.mk Role.human user_input, Message.mk Role.ai ans]).length > 10)]

/-- A ten-message session (five completed turns). -/
def c9_test_sd : SessionData :=
  { session :=
      [⟨Role.human, "q1"⟩, ⟨Role.ai, "a1"⟩, ⟨Role.human, "q2"⟩, ⟨Role.ai, "a2"⟩,
       ⟨Role.human, "q3"⟩, ⟨Role.ai, "a3"⟩, ⟨Role.human, "q4"⟩, ⟨Role.ai, "a4"⟩,
       ⟨Role.human, "q5"⟩, ⟨Role.ai, "a5"⟩],
    memory := "summary so far" }

/-- Witness for `c9_session_window`: a full ten-message session gets
truncated to the most recent four. -/
theorem c9_witness :
    (run_agent "q6" (Except.ok testGraphResult) (fun m _ => m)
      c9_test_sd).newSession.session.length ≤ 10 ∧
    ∃ ans : String,
      (run_agent "q6" (Except.ok testGraphResult) (fun m _ => m)
        c9_test_sd).newSession.session =
        lastN 4 (c9_test_sd.session ++ [Message.mk Role.human "q6", Message.mk Role.ai ans]) ∧
      (run_agent "q6" (Except.ok testGraphResult) (fun m _ => m)
        c9_test_sd).newSession.session.length = 4 := by
  obtain ⟨h1, ans, h2, _⟩ :=
    c9_session_window "q6" (Except.ok testGraphResult) (fun m _ => m) c9_test_sd
  exact ⟨h1, ans, (h2 (by decide)).1, (h2 (by decide)).2.1⟩

/-- Insertion into the descending sort preserves membership. -/
theorem mem_insertDescBy {key : α → ℚ} {x a : α} {l : List α} :
    a ∈ insertDescBy key x l ↔ a = x ∨ a ∈ l := by
  induction l with
  | nil => simp [insertDescBy]
  | cons y ys ih =>
    simp only [insertDescBy]
    split
    · simp [List.mem_cons]
    · simp only [List.mem_cons, ih]
      tauto

/-- The `ORDER BY ... DESC` sort is a permutation for membership
purposes. -/
theorem mem_sortDescBy {key : α → ℚ} {a : α} {l : List α} :
    a ∈ sortDescBy key l ↔ a ∈ l := by
  induction l with
  | nil => simp [sortDescBy]
  | cons y ys ih =>
    rw [sortDescBy, List.foldr_cons, mem_insertDescBy]
    rw [sortDescBy] at ih
    rw [ih, List.mem_cons]

/-- Claim C4: for a user all of whose stored budgets have non-zero
`monthly_limit`, every row of `check_budget_status` satisfies
`usage_percent = spent / budget * 100`; the guard-free division is
well-defined there, witnessed by the denominator-clearing identity
`usage_percent * budget = spent * 100`, which needs the non-zero
hypothesis. -/
theorem c4_usage_percent (db : FinDB) (user_id : String)
    (hnz : ∀ b ∈ db.budgets, b.monthly_limit ≠ 0) :
    ∀ row ∈ check_budget_status db user_id,
      row.usage_percent = row.spent / row.budget * 100 ∧
      row.usage_percent * row.budget = row.spent * 100 := by
  intro row hrow
  rw [check_budget_status, mem_sortDescBy] at hrow
  obtain ⟨b, hb, rfl⟩ := List.mem_map.mp hrow
  have hbmem : b ∈ db.budgets := (List.mem_filter.mp hb).1
  have hz := hnz b hbmem
  refine ⟨rfl, ?_⟩
  show expense_sum db user_id b.category / b.monthly_limit * 100 * b.monthly_limit =
    expense_sum db user_id b.category * 100
  field_simp

/-- Witness for `c4_usage_percent` on a one-budget database. -/
theorem c4_witness :
    (budget_row testDB "u1" ⟨"u1", "food", 200⟩).usage_percent =
      (budget_row testDB "u1" ⟨"u1", "food", 200⟩).spent /
        (budget_row testDB "u1" ⟨"u1", "food", 200⟩).budget * 100 ∧
    (budget_row testDB "u1" ⟨"u1", "food", 200⟩).usage_percent *
        (budget_row testDB "u1" ⟨"u1", "food", 200⟩).budget =
      (budget_row testDB "u1" ⟨"u1", "food", 200⟩).spent * 100 :=
  c4_usage_percent testDB "u1" (by decide)
    (budget_row testDB "u1" ⟨"u1", "food", 200⟩)
    (List.mem_singleton.mpr rfl)

/-- List-level form of date insensitivity: rewriting dates changes no field
the expense filter reads. -/
theorem sum_filter_map_dates (f : String → String) (user_id category : String)
    (ts : List Transaction) :
    (((ts.map (fun t => ({ t with date := f t.date } : Transaction))).filter
        (fun t => t.user_id == user_id && t.category == some category &&
          t.type == "expense")).map (fun t => t.amount)).sum =
      ((ts.filter (fun t => t.user_id == user_id && t.category == some category &&
          t.type == "expense")).map (fun t => t.amount)).sum := by
  induction ts with
  | nil => rfl
  | cons t ts ih =>
    simp only [List.map_cons, List.filter_cons]
    split_ifs with h
    · simp only [List.map_cons, List.sum_cons]
      rw [ih]
    · exact ih

/-- Rewriting dates changes no field `check_budget_status` reads, so the
per-category sum is unchanged. -/
theorem expense_sum_mapTxnDates (f : String → String) (db : FinDB)
    (user_id category : String) :
    expense_sum (mapTxnDates f db) user_id category =
      expense_sum db user_id category :=
  sum_filter_map_dates f user_id category db.transactions

/-- Row construction is date-insensitive. -/
theorem budget_row_mapTxnDates (f : String → String) (db : FinDB)
    (user_id : String) (b : Budget) :
    budget_row (mapTxnDates f db) user_id b = budget_row db user_id b := by
  unfold budget_row
  rw [expense_sum_mapTxnDates]

/-- Claim C10: `check_budget_status` sums ALL stored expense transactions
of the category with no date restriction.  First two conjuncts: rewriting
every transaction date arbitrarily (e.g. moving everything out of the
current month) changes neither the budget rows nor the 75/90/100-tier
alert derived from them.  Third conjunct: each row's `spent` is the
all-time per-category expense sum and `usage_percent` compares it to the
monthly limit. -/
theorem c10_all_time_spending (db : FinDB) (user_id : String)
    (f : String → String) (fmt : PyFmt) :
    check_budget_status (mapTxnDates f db) user_id =
      check_budget_status db user_id ∧
    generate_alert fmt (check_budget_status (mapTxnDates f db) user_id) =
      generate_alert fmt (check_budget_status db user_id) ∧
    ∀ row ∈ check_budget_status db user_id,
      ∃ b ∈ db.budgets, b.user_id = user_id ∧ row.category = b.category ∧
        row.budget = b.monthly_limit ∧
        row.spent = expense_sum db user_id b.category ∧
        row.usage_percent = expense_sum db user_id b.category /
          b.monthly_limit * 100 := by
  have hrows : check_budget_status (mapTxnDates f db) user_id =
      check_budget_status db user_id := by
    unfold check_budget_status
    have hb : (mapTxnDates f db).budgets = db.budgets := rfl
    rw [hb]
    have hfun : budget_row (mapTxnDates f db) user_id = budget_row db user_id :=
      funext (budget_row_mapTxnDates f db user_id)
    rw [hfun]
  refine ⟨hrows, by rw [hrows], ?_⟩
  intro row hrow
  rw [check_budget_status, mem_sortDescBy] at hrow
  obtain ⟨b, hb, rfl⟩ := List.mem_map.mp hrow
  obtain ⟨hbmem, hbu⟩ := List.mem_filter.mp hb
  exact ⟨b, hbmem, beq_iff_eq.mp hbu, rfl, rfl, rfl, rfl⟩

/-- Witness for `c10_all_time_spending`: shifting the stored transaction a
year back leaves the budget row (hence the usage percentage) unchanged. -/
theorem c10_witness :
    check_budget_status (mapTxnDates (fun _ => "2024-01-01T00:00:00") testDB) "u1" =
      check_budget_status testDB "u1" ∧
    generate_alert testFmt
        (check_budget_status (mapTxnDates (fun _ => "2024-01-01T00:00:00") testDB) "u1") =
      generate_alert testFmt (check_budget_status testDB "u1") ∧
    ∃ b ∈ testDB.budgets, b.user_id = "u1" ∧
      (budget_row testDB "u1" ⟨"u1", "food", 200⟩).category = b.category ∧
      (budget_row testDB "u1" ⟨"u1", "food", 200⟩).budget = b.monthly_limit ∧
      (budget_row testDB "u1" ⟨"u1", "food", 200⟩).spent =
        expense_sum testDB "u1" b.category ∧
      (budget_row testDB "u1" ⟨"u1", "food", 200⟩).usage_percent =
        expense_sum testDB "u1" b.category / b.monthly_limit * 100 := by
  obtain ⟨h1, h2, h3⟩ :=
    c10_all_time_spending testDB "u1" (fun _ => "2024-01-01T00:00:00") testFmt
  exact ⟨h1, h2, h3 (budget_row testDB "u1" ⟨"u1", "food", 200⟩)
    (List.mem_singleton.mpr rfl)⟩

/-- The `MERGE` pattern matches exactly the records with the given key. -/
theorem budgetKeyIs_iff {u c : String} {b : Budget} :
    budgetKeyIs u c b = true ↔ budgetKey b = (u, c) := by
  simp [budgetKeyIs, budgetKey, Prod.ext_iff]

/-- The `SET` clause never changes a record's key. -/
theorem budgetKey_update (u c : String) (lim : ℚ) (b : Budget) :
    budgetKey (if budgetKeyIs u c b then { b with monthly_limit := lim } else b) =
      budgetKey b := by
  split <;> rfl

/-- The `MERGE ... SET` list effect preserves key uniqueness. -/
theorem set_budget_budgets_unique (l : List Budget) (u catL : String) (lim : ℚ)
    (h : l.Pairwise (fun a b => budgetKey a ≠ budgetKey b)) :
    (set_budget_budgets l u catL lim).Pairwise
      (fun a b => budgetKey a ≠ budgetKey b) := by
  unfold set_budget_budgets
  split_ifs with hex
  · rw [List.pairwise_map]
    refine h.imp ?_
    intro a b hab
    rw [budgetKey_update, budgetKey_update]
    exact hab
  · rw [List.pairwise_append]
    refine ⟨h, List.pairwise_singleton _ _, ?_⟩
    intro a ha b hb
    have hbeq : b = (⟨u, catL, lim⟩ : Budget) := List.mem_singleton.mp hb
    subst hbeq
    intro hk
    have hpa : budgetKeyIs u catL a = true := budgetKeyIs_iff.mpr hk
    exact hex (List.any_eq_true.mpr ⟨a, ha, hpa⟩)

/-- `set_budget` preserves key uniqueness. -/
theorem set_budget_unique (db : FinDB) (u c : String) (lim : ℚ)
    (h : BudgetKeyUnique db) : BudgetKeyUnique (set_budget db u c lim) := by
  unfold BudgetKeyUnique set_budget
  exact set_budget_budgets_unique db.budgets u (⟨lowerChars c.data⟩ : String) lim h

/-- Key uniqueness holds in every reachable database state. -/
theorem reachable_budget_unique {db : FinDB} (h : Reachable db) :
    BudgetKeyUnique db := by
  induction h with
  | empty => exact List.Pairwise.nil
  | step_set_budget u c lim _ ih => exact set_budget_unique _ u c lim ih
  | step_add_transaction u t d _ ih => exact ih

/-- With unique keys and a matching record present, updating and filtering
recovers exactly the one updated record. -/
theorem filter_update_of_unique (u c : String) (lim : ℚ) (l : List Budget)
    (hp : l.Pairwise (fun a b => budgetKey a ≠ budgetKey b))
    (hany : l.any (budgetKeyIs u c) = true) :
    ((l.map (fun b => if budgetKeyIs u c b then
        { b with monthly_limit := lim } else b)).filter (budgetKeyIs u c)) =
      [⟨u, c, lim⟩] := by
  induction l with
  | nil => simp at hany
  | cons x xs ih =>
    rw [List.pairwise_cons] at hp
    obtain ⟨hx, hxs⟩ := hp
    by_cases hpx : budgetKeyIs u c x = true
    · have hxkey : budgetKey x = (u, c) := budgetKeyIs_iff.mp hpx
      have hupd : (if budgetKeyIs u c x then
          { x with monthly_limit := lim } else x) = (⟨u, c, lim⟩ : Budget) := by
        rw [if_pos hpx]
        cases x with
        | mk xu xc xl =>
          simp only [budgetKey, Prod.mk.injEq] at hxkey
          obtain ⟨h1, h2⟩ := hxkey
          subst h1
          subst h2
          rfl
      have htail : ((xs.map (fun b => if budgetKeyIs u c b then
          { b with monthly_limit := lim } else b)).filter (budgetKeyIs u c)) = [] := by
        rw [List.filter_eq_nil_iff]
        intro a ha hpa
        obtain ⟨y, hy, rfl⟩ := List.mem_map.mp ha
        have hykey : budgetKey y = (u, c) := by
          rw [← budgetKey_update u c lim y]
          exact budgetKeyIs_iff.mp hpa
        exact hx y hy (by rw [hxkey, hykey])
      rw [List.map_cons, hupd, List.filter_cons,
        if_pos (show budgetKeyIs u c (⟨u, c, lim⟩ : Budget) = true from
          budgetKeyIs_iff.mpr rfl), htail]
    · have hany2 : xs.any (budgetKeyIs u c) = true := by
        rcases List.any_eq_true.mp hany with ⟨z, hz, hpz⟩
        rcases List.mem_cons.mp hz with hzx | hz2
        · exact absurd (hzx ▸ hpz) hpx
        · exact List.any_eq_true.mpr ⟨z, hz2, hpz⟩
      rw [List.map_cons, if_neg hpx, List.filter_cons, if_neg hpx]
      exact ih hxs hany2

/-- With no matching record present, creating the node and filtering
recovers exactly the new record. -/
theorem filter_append_new (u c : String) (lim : ℚ) (l : List Budget)
    (hnone : l.any (budgetKeyIs u c) = false) :
    ((l ++ [(⟨u, c, lim⟩ : Budget)]).filter (budgetKeyIs u c)) =
      [⟨u, c, lim⟩] := by
  rw [List.filter_append]
  have h1 : l.filter (budgetKeyIs u c) = [] := by
    rw [List.filter_eq_nil_iff]
    intro a ha hpa
    have h2 : l.any (budgetKeyIs u c) = true := List.any_eq_true.mpr ⟨a, ha, hpa⟩
    rw [hnone] at h2
    cases h2
  rw [h1, List.nil_append, List.filter_cons,
    if_pos (show budgetKeyIs u c (⟨u, c, lim⟩ : Budget) = true from
      budgetKeyIs_iff.mpr rfl)]
  rfl

/-- Claim C8: `set_budget` is an upsert keyed on
`(user_id, category.lower())`.  Every reachable database state keeps at
most one `Budget` node per key, and so does the post-state; after the call
the key stores exactly the new limit (one record); and when the key
already existed, no record is added — the matched record is overwritten in
place. -/
theorem c8_set_budget_upsert (db : FinDB) (user_id category : String) (lim : ℚ)
    (hreach : Reachable db) :
    BudgetKeyUnique db ∧
    BudgetKeyUnique (set_budget db user_id category lim) ∧
    budget_limits_for (set_budget db user_id category lim) user_id
      (⟨lowerChars category.data⟩ : String) = [lim] ∧
    (db.budgets.any (budgetKeyIs user_id (⟨lowerChars category.data⟩ : String)) = true →
      (set_budget db user_id category lim).budgets.length = db.budgets.length) := by
  have hu := reachable_budget_unique hreach
  refine ⟨hu, set_budget_unique db user_id category lim hu, ?_, ?_⟩
  · unfold budget_limits_for
    have hb : (set_budget db user_id category lim).budgets =
        set_budget_budgets db.budgets user_id
          (⟨lowerChars category.data⟩ : String) lim := rfl
    rw [hb]
    unfold set_budget_budgets
    split_ifs with hex
    · rw [filter_update_of_unique _ _ lim _ hu hex]
      rfl
    · rw [filter_append_new _ _ lim _ (Bool.eq_false_iff.mpr hex)]
      rfl
  · intro hex
    have hb : (set_budget db user_id category lim).budgets =
        set_budget_budgets db.budgets user_id
          (⟨lowerChars category.data⟩ : String) lim := rfl
    rw [hb]
    unfold set_budget_budgets
    rw [if_pos hex, List.length_map]

/-- A reachable one-budget state: the key is stored lower-cased. -/
def c8_db0 : FinDB := set_budget FinDB.empty "u1" "Food" 100

/-- Witness for `c8_set_budget_upsert`: re-setting the budget for
`("u1", "FOOD")` overwrites the record `set_budget` stored for
`("u1", "Food")` instead of adding a second one. -/
theorem c8_witness :
    BudgetKeyUnique c8_db0 ∧
    BudgetKeyUnique (set_budget c8_db0 "u1" "FOOD" 50) ∧
    budget_limits_for (set_budget c8_db0 "u1" "FOOD" 50) "u1"
      (⟨lowerChars "FOOD".data⟩ : String) = [50] ∧
    (c8_db0.budgets.any (budgetKeyIs "u1" (⟨lowerChars "FOOD".data⟩ : String)) = true →
      (set_budget c8_db0 "u1" "FOOD" 50).budgets.length = c8_db0.budgets.length) :=
  c8_set_budget_upsert c8_db0 "u1" "FOOD" 50
    (Reachable.step_set_budget "u1" "Food" 100 Reachable.empty)

end FinGuard
